import Mathlib

/-!
Shallow embedding of `src/assets/generate_og_image.py`, a script that renders
a fixed 1200×630 social-share card twice: once with matplotlib (raster) when
that backend imports, and once as a hand-written SVG string (vector), then
writes both to disk.  Pure data (coordinates, colors, sample arrays, the SVG
literal) is embedded directly; the drawing calls become records of the
arguments the script passes to the backend.
-/

namespace OG

/-- The `COLORS` dict (source lines 22–31): mapping from semantic color role
to a hex color string. -/
structure Colors where
  primary : String
  primary_dark : String
  accent : String
  success : String
  warning : String
  dark : String
  light : String
  white : String
deriving Repr, DecidableEq

/-- The literal `COLORS` value from source lines 22–31. -/
def COLORS : Colors :=
  { primary := "#2E86AB"
  , primary_dark := "#1a5a7a"
  , accent := "#F18F01"
  , success := "#28A745"
  , warning := "#DC3545"
  , dark := "#1a1a1a"
  , light := "#f5f5f5"
  , white := "#ffffff" }

/-! ## Raster path: `generate_og_image_matplotlib` (source lines 33–130) -/

/-- `figsize=(12, 6.3)` from `plt.subplots(figsize=(12, 6.3), dpi=100)`
(source line 36).  Logical figure size in inches. -/
def figsize : ℚ × ℚ := (12, 63/10)

/-- `dpi=100` from source line 36 (and again in `savefig`, line 124). -/
def dpi : ℚ := 100

/-- A matplotlib `Rectangle` patch call as issued by the script: origin,
width, height, facecolor and alpha. -/
structure RectPatch where
  x : ℚ
  y : ℚ
  w : ℚ
  h : ℚ
  facecolor : String
  alpha : ℚ
deriving Repr, DecidableEq

/-- The vignette loop (source lines 46–52): for `i in range(20)`,
`alpha = 0.02 * (20 - i) / 20`, then a full-canvas `Rectangle((0, 0), 12, 6.3)`
with `facecolor=COLORS['primary']` and `alpha=alpha * 0.5`. -/
def vignetteRects : List RectPatch :=
  (List.range 20).map fun i : ℕ =>
    { x := 0, y := 0, w := 12, h := 63/10
    , facecolor := COLORS.primary
    , alpha := (2/100 * ((20 - (i : ℚ)) / 20)) * (1/2) }

/-- The effective alpha of vignette layer `i` as a function of the index,
exactly the expression `(0.02 * (20 - i) / 20) * 0.5` from source
lines 47 and 50. -/
def vignetteAlpha (i : ℚ) : ℚ := (2/100 * ((20 - i) / 20)) * (1/2)

/-- An `ax.text` call: anchor position, the string drawn, font size, color. -/
structure TextCall where
  x : ℚ
  y : ℚ
  s : String
  fontsize : ℚ
  color : String
deriving Repr, DecidableEq

/-- The `stats` list of (value, label) pairs from source lines 83–87. -/
def stats : List (String × String) :=
  [("5.7x", "Mean"), ("$47T", "Value"), ("91.5%", "AI Sensitivity")]

/-- The secondary-stats layout loop (source lines 89–96), translated with the
iterated list as a parameter: for each `(i, (value, label))` in `enumerate`,
`x = 5.8 + i * 2`, then a value text at `(x, 3.6)` (fontsize 24, accent) and a
label text at `(x, 2.9)` (fontsize 11, light). -/
def layoutStats (st : List (String × String)) : List (TextCall × TextCall) :=
  st.enum.map fun p =>
    ( { x := 58/10 + (p.1 : ℚ) * 2, y := 36/10, s := p.2.1
      , fontsize := 24, color := COLORS.accent }
    , { x := 58/10 + (p.1 : ℚ) * 2, y := 29/10, s := p.2.2
      , fontsize := 11, color := COLORS.light } )

/-- The x anchor positions of the placed secondary-stat groups. -/
def statXs (st : List (String × String)) : List ℚ :=
  (layoutStats st).map fun p => p.1.x

/-- `years = np.linspace(0, 5, 50)` (source line 109): 50 evenly spaced
samples from 0 to 5 inclusive, so sample `j` is `5 * j / 49`. -/
def years : List ℚ := (List.range 50).map fun j : ℕ => 5 * (j : ℚ) / 49

/-- `baseline = 1 + years * 0.8 + 0.1 * years**2` (source line 110),
as a function of one sample. -/
def baseline (t : ℚ) : ℚ := 1 + t * (8/10) + (1/10) * t ^ 2

/-- `chart_x = years * 0.4 + 0.5` (source line 113). -/
def chart_x (t : ℚ) : ℚ := t * (4/10) + 5/10

/-- `chart_y = baseline * 0.15 + 0.3` (source line 114). -/
def chart_y (t : ℚ) : ℚ := baseline t * (15/100) + 3/10

/-- An `ax.fill_between(xs, lower, upper, color=…, alpha=…)` call. -/
structure FillBetween where
  xs : List ℚ
  lower : List ℚ
  upper : List ℚ
  color : String
  alpha : ℚ
deriving Repr, DecidableEq

/-- `ax.fill_between(chart_x, chart_y * 0.7, chart_y * 1.3,
color=COLORS['primary'], alpha=0.2)` (source lines 116–117). -/
def trendFill : FillBetween :=
  { xs := years.map chart_x
  , lower := years.map fun t => chart_y t * (7/10)
  , upper := years.map fun t => chart_y t * (13/10)
  , color := COLORS.primary
  , alpha := 2/10 }

/-- An `ax.plot(xs, ys, color=…, linewidth=…)` call. -/
structure PlotCall where
  xs : List ℚ
  ys : List ℚ
  color : String
  linewidth : ℚ
deriving Repr, DecidableEq

/-- `ax.plot(chart_x, chart_y, color=COLORS['accent'], linewidth=2)`
(source line 118). -/
def trendPlot : PlotCall :=
  { xs := years.map chart_x
  , ys := years.map chart_y
  , color := COLORS.accent
  , linewidth := 2 }

/-- The keyword arguments of `fig.savefig` (source lines 123–127). -/
structure SavefigArgs where
  dpi : ℚ
  facecolor : String
  bbox_inches : String
  pad_inches : ℚ
deriving Repr, DecidableEq

/-- `fig.savefig(…, dpi=100, facecolor=COLORS['dark'], bbox_inches='tight',
pad_inches=0)` from source lines 123–127. -/
def savefigArgs : SavefigArgs :=
  { dpi := 100, facecolor := COLORS.dark, bbox_inches := "tight", pad_inches := 0 }

/-- A hex color string of the form `#rrggbb` (7 characters, no alpha
channel), hence fully opaque. -/
def isOpaqueHex (s : String) : Bool :=
  s.length == 7 && s.front == '#'

end OG

namespace OG

/-! ## Vector path: `generate_og_image_svg` (source lines 133-213) -/

/-- The literal `svg_content` string from source lines 136-208, reproduced
byte for byte (with only the surrounding quoting translated). -/
def svg_content : String := "<?xml version=\"1.0\" encoding=\"UTF-8\"?>
<svg width=\"1200\" height=\"630\" xmlns=\"http://www.w3.org/2000/svg\">
  <defs>
    <linearGradient id=\"bg-gradient\" x1=\"0%\" y1=\"0%\" x2=\"100%\" y2=\"100%\">
      <stop offset=\"0%\" style=\"stop-color:#1a1a1a;stop-opacity:1\" />
      <stop offset=\"100%\" style=\"stop-color:#2d2d2d;stop-opacity:1\" />
    </linearGradient>
    <linearGradient id=\"accent-gradient\" x1=\"0%\" y1=\"0%\" x2=\"100%\" y2=\"0%\">
      <stop offset=\"0%\" style=\"stop-color:#2E86AB;stop-opacity:1\" />
      <stop offset=\"100%\" style=\"stop-color:#1a5a7a;stop-opacity:1\" />
    </linearGradient>
  </defs>

  <!-- Background -->
  <rect width=\"1200\" height=\"630\" fill=\"url(#bg-gradient)\"/>

  <!-- Decorative elements -->
  <circle cx=\"1100\" cy=\"100\" r=\"200\" fill=\"#2E86AB\" opacity=\"0.1\"/>
  <circle cx=\"100\" cy=\"530\" r=\"150\" fill=\"#F18F01\" opacity=\"0.1\"/>

  <!-- Main title -->
  <text x=\"60\" y=\"120\" font-family=\"Arial, sans-serif\" font-size=\"48\" font-weight=\"bold\" fill=\"#ffffff\">
    AI-Accelerated Biological Discovery
  </text>

  <!-- Subtitle -->
  <text x=\"60\" y=\"170\" font-family=\"Arial, sans-serif\" font-size=\"24\" fill=\"#2E86AB\">
    A Quantitative Model
  </text>

  <!-- Main stat box -->
  <rect x=\"60\" y=\"220\" width=\"400\" height=\"200\" rx=\"16\" fill=\"url(#accent-gradient)\"/>

  <text x=\"260\" y=\"310\" font-family=\"Arial, sans-serif\" font-size=\"56\" font-weight=\"bold\" fill=\"#ffffff\" text-anchor=\"middle\">
    3.4x – 9.2x
  </text>
  <text x=\"260\" y=\"360\" font-family=\"Arial, sans-serif\" font-size=\"20\" fill=\"#ffffff\" opacity=\"0.9\" text-anchor=\"middle\">
    Acceleration by 2050
  </text>
  <text x=\"260\" y=\"395\" font-family=\"Arial, sans-serif\" font-size=\"14\" fill=\"#ffffff\" opacity=\"0.7\" text-anchor=\"middle\">
    80% Confidence Interval
  </text>

  <!-- Secondary stats -->
  <g transform=\"translate(520, 280)\">
    <text x=\"0\" y=\"0\" font-family=\"Arial, sans-serif\" font-size=\"40\" font-weight=\"bold\" fill=\"#F18F01\" text-anchor=\"middle\">5.7x</text>
    <text x=\"0\" y=\"40\" font-family=\"Arial, sans-serif\" font-size=\"16\" fill=\"#cccccc\" text-anchor=\"middle\">Mean</text>
  </g>

  <g transform=\"translate(700, 280)\">
    <text x=\"0\" y=\"0\" font-family=\"Arial, sans-serif\" font-size=\"40\" font-weight=\"bold\" fill=\"#F18F01\" text-anchor=\"middle\">$47T</text>
    <text x=\"0\" y=\"40\" font-family=\"Arial, sans-serif\" font-size=\"16\" fill=\"#cccccc\" text-anchor=\"middle\">Value</text>
  </g>

  <g transform=\"translate(880, 280)\">
    <text x=\"0\" y=\"0\" font-family=\"Arial, sans-serif\" font-size=\"40\" font-weight=\"bold\" fill=\"#F18F01\" text-anchor=\"middle\">91.5%</text>
    <text x=\"0\" y=\"40\" font-family=\"Arial, sans-serif\" font-size=\"16\" fill=\"#cccccc\" text-anchor=\"middle\">AI Sensitivity</text>
  </g>

  <!-- Mini chart -->
  <path d=\"M 60 550 Q 200 520 350 480 T 550 400\" stroke=\"#F18F01\" stroke-width=\"3\" fill=\"none\"/>
  <path d=\"M 60 550 Q 200 520 350 480 T 550 400 L 550 550 L 60 550 Z\" fill=\"#2E86AB\" opacity=\"0.2\"/>

  <!-- Bottom tagline -->
  <text x=\"60\" y=\"590\" font-family=\"Arial, sans-serif\" font-size=\"16\" fill=\"#888888\">
    Monte Carlo simulation • Sobol sensitivity analysis • Policy ROI rankings
  </text>

  <!-- URL -->
  <text x=\"1140\" y=\"600\" font-family=\"Arial, sans-serif\" font-size=\"14\" fill=\"#2E86AB\" text-anchor=\"end\">
    ai-bio-acceleration.github.io
  </text>
</svg>"

/-- `generate_og_image_svg` (source lines 133-213).  The function's body
references no module global other than the output directory: it returns the
fixed literal.  The module's `COLORS` mapping is passed in explicitly here as
the ambient Style Record, mirroring that the Python function closes over the
module globals; its body never reads it. -/
def generate_og_image_svg (_colors : Colors) : String := svg_content

/-- One invocation of the tool's vector path: run number `_run` writes
`generate_og_image_svg` of the module's `COLORS` to `og-image.svg`.  The
returned string is the file contents written. -/
def run_svg (_run : Nat) : String := generate_og_image_svg COLORS

/-! ## Orchestration: `main` (source lines 216-227) -/

/-- The two artifacts the tool can write. -/
inductive Artifact where
  | raster
  | vector
deriving Repr, DecidableEq

/-- `main` (source lines 216-227), as the ordered list of artifact-producing
operations it attempts, as a function of `HAS_MATPLOTLIB` (source lines
10-16): the raster call happens iff the backend imported, and the vector
call is unconditional and afterwards. -/
def mainArtifacts (hasMatplotlib : Bool) : List Artifact :=
  (if hasMatplotlib then [Artifact.raster] else []) ++ [Artifact.vector]

/-- The process exit code of `main`: the script raises nothing and calls no
`sys.exit`, so (absent I/O errors, which are out of this model) it exits 0
for either value of `HAS_MATPLOTLIB`. -/
def mainExitCode (_hasMatplotlib : Bool) : Nat := 0

end OG

namespace OG

/-! ## Elementary string scanning, used to state properties of the SVG text -/

/-- If `pat` is an initial segment of `s`, return the remainder of `s`
after it; otherwise `none`. -/
def stripPat : List Char → List Char → Option (List Char)
  | [], s => some s
  | _ :: _, [] => none
  | a :: p, b :: s => if a == b then stripPat p s else none

/-- Search for the first occurrence of `pat` in `s`; on success return the
remainder of `s` after that occurrence. -/
def searchFrom (pat : List Char) : List Char → Option (List Char)
  | [] => stripPat pat []
  | b :: rest =>
    match stripPat pat (b :: rest) with
    | some r => some r
    | none => searchFrom pat rest

/-- `pat` occurs somewhere in `s`. -/
def containsSub (pat s : String) : Bool := (searchFrom pat.data s.data).isSome

/-- Each listed pattern occurs in `s`, in order, at disjoint positions
(each search resumes after the previous match). -/
def occursInOrder (pats : List String) (s : String) : Bool :=
  go (pats.map String.data) s.data
where
  go : List (List Char) → List Char → Bool
  | [], _ => true
  | p :: ps, s =>
    match searchFrom p s with
    | some rest => go ps rest
    | none => false

/-- Collect the contents of every `<…>` tag in document order.  The boolean
tracks whether the scan is currently inside a tag; the first accumulator is
the (reversed) current tag, the second the (reversed) finished tags. -/
def scanTags : List Char → Bool → List Char → List (List Char) → List (List Char)
  | [], _, _, acc => acc.reverse
  | c :: rest, true, cur, acc =>
    if c == '>' then scanTags rest false [] (cur.reverse :: acc)
    else scanTags rest true (c :: cur) acc
  | c :: rest, false, cur, acc =>
    if c == '<' then scanTags rest true [] acc
    else scanTags rest false cur acc

/-- All tags of a markup document. -/
def tagsOf (s : String) : List (List Char) := scanTags s.data false [] []

/-- The element name at the head of a tag body: characters up to the first
space, slash, or line break. -/
def tagName (t : List Char) : List Char :=
  t.takeWhile fun c => !(c == ' ' || c == '/' || c == '\n' || c == '\t')

/-- Check a tag stream is properly nested: processing declarations (`?…`)
and comments (`!…`) as no-ops, self-closing tags (`…/`) as no-ops, opening
tags as pushes and closing tags (`/name`) as pops of a matching name, the
stack must end empty. -/
def checkTags : List (List Char) → List (List Char) → Bool
  | [], stack => stack.isEmpty
  | t :: ts, stack =>
    match t with
    | [] => false
    | c :: body =>
      if c == '?' || c == '!' then checkTags ts stack
      else if c == '/' then
        match stack with
        | [] => false
        | top :: stack2 => top == tagName body && checkTags ts stack2
      else if t.getLast? == some '/' then checkTags ts stack
      else checkTags ts (tagName t :: stack)

/-- A markup document is well formed (at the tag-nesting level): it has at
least one element and its tags balance. -/
def wellFormedMarkup (s : String) : Bool :=
  !(tagsOf s).isEmpty && checkTags (tagsOf s) []

/-- The root tag of a markup document: the first tag that is neither a
declaration nor a comment. -/
def rootTag (s : String) : Option (List Char) :=
  (tagsOf s).find? fun t =>
    match t with
    | [] => false
    | c :: _ => !(c == '?' || c == '!')

end OG

namespace OG

set_option maxRecDepth 100000

/-! ## Claims -/

/-- C1: the vector operation is attempted after the raster attempt,
unconditionally: for either value of `HAS_MATPLOTLIB` the vector artifact is
produced and is the last operation; when the raster backend imported the run
is raster-then-vector; when it did not, exactly one artifact (the vector one)
is produced and the run still exits 0. -/
theorem main_always_vector_last (b : Bool) :
    (mainArtifacts b).getLast? = some Artifact.vector ∧
    Artifact.vector ∈ mainArtifacts b ∧
    (b = true → mainArtifacts b = [Artifact.raster, Artifact.vector]) ∧
    (b = false →
      mainArtifacts b = [Artifact.vector] ∧ (mainArtifacts b).length = 1 ∧
      mainExitCode b = 0) := by
  cases b <;> simp [mainArtifacts, mainExitCode]

/-- Witness for C1 at the concrete input `HAS_MATPLOTLIB = false`. -/
theorem main_always_vector_last_witness :
    mainArtifacts false = [Artifact.vector] ∧ (mainArtifacts false).length = 1 ∧
    mainExitCode false = 0 :=
  (main_always_vector_last false).2.2.2 rfl

/-- C2: the vector artifact is well-formed markup (its tags nest properly and
it has a root element), and its root element is an `svg` element declaring a
viewport of exactly width 1200 and height 630. -/
theorem svg_wellformed_1200x630 :
    wellFormedMarkup (generate_og_image_svg COLORS) = true ∧
    rootTag (generate_og_image_svg COLORS) =
      some ("svg width=\"1200\" height=\"630\" xmlns=\"http://www.w3.org/2000/svg\"").data := by
  exact ⟨by decide, by decide⟩

/-- C3: the raster artifact's nominal pixel dimensions, figure size times
dpi, are exactly 1200×630; the background color is explicitly passed to the
encode call (`savefig`) and equals the opaque 6-digit hex `dark` color; and
the external margin padding is 0. -/
theorem raster_1200x630_opaque :
    figsize.1 * dpi = 1200 ∧ figsize.2 * dpi = 630 ∧
    savefigArgs.dpi = dpi ∧
    savefigArgs.facecolor = COLORS.dark ∧
    isOpaqueHex savefigArgs.facecolor = true ∧
    savefigArgs.pad_inches = 0 := by
  refine ⟨by norm_num [figsize, dpi], by norm_num [figsize, dpi], rfl, rfl, by decide, rfl⟩

/-- C5: re-running the vector path with the unchanged hard-coded records is
idempotent: any two runs write byte-identical vector file contents. -/
theorem svg_runs_byte_identical (m n : ℕ) : run_svg m = run_svg n := rfl

/-- C9: the vector output does not depend on the Style Record: for any two
values of the `COLORS` mapping the written markup is identical, and the
colors appearing in the markup are duplicated literals (the primary, accent,
dark and primary-dark hex strings occur verbatim inside the fixed string). -/
theorem svg_independent_of_colors :
    (∀ c₁ c₂ : Colors, generate_og_image_svg c₁ = generate_og_image_svg c₂) ∧
    containsSub COLORS.primary svg_content = true ∧
    containsSub COLORS.accent svg_content = true ∧
    containsSub COLORS.dark svg_content = true ∧
    containsSub COLORS.primary_dark svg_content = true := by
  exact ⟨fun _ _ => rfl, by decide, by decide, by decide, by decide⟩

end OG

namespace OG

set_option maxRecDepth 100000

/-- Every sample of `years` lies in the closed interval [0, 5]. -/
theorem mem_years_bounds {t : ℚ} (ht : t ∈ years) : 0 ≤ t ∧ t ≤ 5 := by
  obtain ⟨j, hj, rfl⟩ := List.mem_map.1 ht
  rw [List.mem_range] at hj
  have hj' : (j : ℚ) ≤ 49 := by exact_mod_cast Nat.le_of_lt_succ hj
  have hj0 : (0 : ℚ) ≤ (j : ℚ) := by positivity
  constructor
  · positivity
  · rw [div_le_iff₀ (by norm_num : (0:ℚ) < 49)]
    linarith

/-- C4: the three secondary-statistic groups keep the fixed order
Mean, Value, AI Sensitivity with their literal value strings unchanged; in
the raster layout their anchors are 5.8, 7.8, 9.8 (strictly increasing,
2 apart); in the vector markup the three groups occur in order at
x-translations 520, 700, 880, each followed by its value and label. -/
theorem secondary_stats_order :
    stats = [("5.7x", "Mean"), ("$47T", "Value"), ("91.5%", "AI Sensitivity")] ∧
    ((layoutStats stats).map fun p => (p.1.s, p.2.s)) = stats ∧
    statXs stats = [29/5, 39/5, 49/5] ∧
    List.Chain' (· < ·) (statXs stats) ∧
    List.Chain' (fun a b => b = a + 2) (statXs stats) ∧
    occursInOrder ["translate(520, 280)", "5.7x", "Mean",
      "translate(700, 280)", "$47T", "Value",
      "translate(880, 280)", "91.5%", "AI Sensitivity"] svg_content = true := by
  have hx : statXs stats = [29/5, 39/5, 49/5] := by
    simp [statXs, layoutStats, stats, List.enum, List.enumFrom]
    norm_num
  refine ⟨rfl, rfl, hx, ?_, ?_, by decide⟩
  · rw [hx]
    simp [List.chain'_cons, List.chain'_singleton]
    norm_num
  · rw [hx]
    simp [List.chain'_cons, List.chain'_singleton]
    norm_num

/-- C6: the vignette is exactly 20 full-canvas rectangles of the primary
color whose alphas follow the linear law `(1/100) · (20 − i)/20`: value
1/100 at layer 0, constant decrement 1/2000 per layer, strictly decreasing
with the layer index, and the law reaches 0 at the (exclusive) index 20. -/
theorem vignette_linear_falloff :
    vignetteRects.length = 20 ∧
    (∀ r ∈ vignetteRects,
      r.x = 0 ∧ r.y = 0 ∧ r.w = 12 ∧ r.h = 63/10 ∧ r.facecolor = COLORS.primary) ∧
    vignetteRects.map RectPatch.alpha = (List.range 20).map (fun i : ℕ => vignetteAlpha i) ∧
    (∀ i : ℚ, vignetteAlpha i = (1/100) * ((20 - i) / 20)) ∧
    vignetteAlpha 0 = 1/100 ∧
    vignetteAlpha 20 = 0 ∧
    (∀ i : ℚ, vignetteAlpha i - vignetteAlpha (i + 1) = 1/2000) ∧
    List.Pairwise (· > ·) (vignetteRects.map RectPatch.alpha) := by
  have hmap : vignetteRects.map RectPatch.alpha
      = (List.range 20).map (fun i : ℕ => vignetteAlpha i) := by
    simp only [vignetteRects, List.map_map]
    rfl
  refine ⟨by simp [vignetteRects], ?_, hmap, ?_, by norm_num [vignetteAlpha],
    by norm_num [vignetteAlpha], ?_, ?_⟩
  · intro r hr
    simp only [vignetteRects, List.mem_map] at hr
    obtain ⟨i, -, rfl⟩ := hr
    exact ⟨rfl, rfl, rfl, rfl, rfl⟩
  · intro i
    unfold vignetteAlpha
    ring
  · intro i
    unfold vignetteAlpha
    ring
  · rw [hmap]
    refine (List.pairwise_lt_range 20).map _ ?_
    intro a b hab
    have h' : (a : ℚ) < (b : ℚ) := by exact_mod_cast hab
    unfold vignetteAlpha
    rw [gt_iff_lt]
    linarith

/-- Witness for C6, instantiating the per-rectangle clause at layer 0. -/
theorem vignette_linear_falloff_witness :
    ({ x := 0, y := 0, w := 12, h := 63/10, facecolor := COLORS.primary,
       alpha := (2/100 * ((20 - ((0:ℕ) : ℚ)) / 20)) * (1/2) } : RectPatch).x = 0 ∧
    ({ x := 0, y := 0, w := 12, h := 63/10, facecolor := COLORS.primary,
       alpha := (2/100 * ((20 - ((0:ℕ) : ℚ)) / 20)) * (1/2) } : RectPatch).y = 0 ∧
    ({ x := 0, y := 0, w := 12, h := 63/10, facecolor := COLORS.primary,
       alpha := (2/100 * ((20 - ((0:ℕ) : ℚ)) / 20)) * (1/2) } : RectPatch).w = 12 ∧
    ({ x := 0, y := 0, w := 12, h := 63/10, facecolor := COLORS.primary,
       alpha := (2/100 * ((20 - ((0:ℕ) : ℚ)) / 20)) * (1/2) } : RectPatch).h = 63/10 ∧
    ({ x := 0, y := 0, w := 12, h := 63/10, facecolor := COLORS.primary,
       alpha := (2/100 * ((20 - ((0:ℕ) : ℚ)) / 20)) * (1/2) } : RectPatch).facecolor
      = COLORS.primary :=
  vignette_linear_falloff.2.1 _ (List.mem_map_of_mem _ (by simp))

/-- C7: the trend curve is 50 ordered samples over a strictly increasing
bounded domain; the height profile is the convex quadratic
`1 + 0.8·t + 0.1·t²`, affinely scaled and translated into the chart region;
the band between the 0.7- and 1.3-scaled copies of the curve is filled with
the primary color at alpha 0.2, and the unscaled curve is stroked in the
accent color. -/
theorem trend_curve_spec :
    years.length = 50 ∧ trendPlot.xs.length = 50 ∧ trendPlot.ys.length = 50 ∧
    trendFill.lower.length = 50 ∧ trendFill.upper.length = 50 ∧
    (∀ t ∈ years, 0 ≤ t ∧ t ≤ 5) ∧
    List.Pairwise (· < ·) years ∧
    List.Pairwise (· < ·) trendPlot.xs ∧
    (∀ t : ℚ, baseline t = 1 + t * (8/10) + (1/10) * t ^ 2) ∧
    (∀ t u : ℚ, baseline ((t + u) / 2) ≤ (baseline t + baseline u) / 2) ∧
    (∀ t : ℚ, chart_x t = t * (4/10) + 5/10) ∧
    (∀ t : ℚ, chart_y t = baseline t * (15/100) + 3/10) ∧
    trendPlot.xs = years.map chart_x ∧
    trendPlot.ys = years.map chart_y ∧
    trendFill.xs = trendPlot.xs ∧
    trendFill.lower = years.map (fun t => chart_y t * (7/10)) ∧
    trendFill.upper = years.map (fun t => chart_y t * (13/10)) ∧
    trendFill.color = COLORS.primary ∧ trendFill.alpha = 2/10 ∧
    trendPlot.color = COLORS.accent ∧ trendPlot.linewidth = 2 := by
  refine ⟨by simp [years], by simp [trendPlot, years], by simp [trendPlot, years],
    by simp [trendFill, years], by simp [trendFill, years],
    fun t ht => mem_years_bounds ht, ?_, ?_, fun t => rfl, ?_, fun t => rfl,
    fun t => rfl, rfl, rfl, rfl, rfl, rfl, rfl, rfl, rfl, rfl⟩
  · simp only [years]
    refine (List.pairwise_lt_range 50).map _ ?_
    intro a b hab
    have h' : (a : ℚ) < (b : ℚ) := by exact_mod_cast hab
    have : 5 * (a : ℚ) < 5 * (b : ℚ) := by linarith
    exact div_lt_div_of_pos_right this (by norm_num)
  · show List.Pairwise (· < ·) (years.map chart_x)
    simp only [years, List.map_map]
    refine (List.pairwise_lt_range 50).map _ ?_
    intro a b hab
    have h' : (a : ℚ) < (b : ℚ) := by exact_mod_cast hab
    simp only [Function.comp, chart_x]
    have : 5 * (a : ℚ) / 49 < 5 * (b : ℚ) / 49 :=
      div_lt_div_of_pos_right (by linarith) (by norm_num)
    linarith
  · intro t u
    simp only [baseline]
    nlinarith [sq_nonneg (t - u)]

/-- Witness for C7, instantiating the domain-bounds clause at the first
sample of `years`. -/
theorem trend_curve_spec_witness :
    0 ≤ 5 * ((0:ℕ) : ℚ) / 49 ∧ 5 * ((0:ℕ) : ℚ) / 49 ≤ 5 :=
  trend_curve_spec.2.2.2.2.2.1 _ (List.mem_map_of_mem _ (by simp))

end OG

namespace OG

set_option maxRecDepth 100000

/-- C8: the secondary-stats layout loop applied to any list of fewer than 3
entries places exactly the provided entries (it is total, so it cannot
raise), preserves each (value, label) pair, and puts the anchors at strictly
increasing positions, 2 logical units apart — no overlap. -/
theorem stats_layout_graceful (st : List (String × String)) (h : st.length < 3) :
    (layoutStats st).length = st.length ∧
    ((layoutStats st).map fun p => (p.1.s, p.2.s)) = st ∧
    List.Pairwise (· < ·) (statXs st) ∧
    List.Pairwise (fun a b => a + 2 ≤ b) (statXs st) := by
  rcases st with _ | ⟨a, _ | ⟨b, _ | ⟨c, tl⟩⟩⟩
  · refine ⟨rfl, rfl, ?_, ?_⟩ <;>
      simp [statXs, layoutStats, List.enum]
  · refine ⟨rfl, rfl, ?_, ?_⟩ <;>
      simp [statXs, layoutStats, List.enum, List.enumFrom]
  · refine ⟨rfl, rfl, ?_, ?_⟩ <;>
      simp [statXs, layoutStats, List.enum, List.enumFrom]
  · exfalso
    simp [List.length] at h
    omega

/-- Witness for C8 at the concrete one-entry list. -/
theorem stats_layout_graceful_witness :
    (layoutStats [("5.7x", "Mean")]).length = ([("5.7x", "Mean")] : List (String × String)).length ∧
    ((layoutStats [("5.7x", "Mean")]).map fun p => (p.1.s, p.2.s)) = [("5.7x", "Mean")] ∧
    List.Pairwise (· < ·) (statXs [("5.7x", "Mean")]) ∧
    List.Pairwise (fun a b => a + 2 ≤ b) (statXs [("5.7x", "Mean")]) :=
  stats_layout_graceful [("5.7x", "Mean")] (by norm_num)

/-- C10: every sample of the trend chart — x positions, the stroked curve,
and both scaled band boundaries — lies inside the canvas (0 < x < 12,
0 < y < 6.3); in fact x ∈ [1/2, 5/2] and all heights are ≤ 1.8525. -/
theorem trend_chart_in_canvas :
    (∀ x ∈ trendFill.xs, 1/2 ≤ x ∧ x ≤ 5/2 ∧ 0 < x ∧ x < 12) ∧
    (∀ y ∈ trendFill.lower, 0 < y ∧ y ≤ 18525/10000 ∧ y < 63/10) ∧
    (∀ y ∈ trendFill.upper, 0 < y ∧ y ≤ 18525/10000 ∧ y < 63/10) ∧
    (∀ y ∈ trendPlot.ys, 0 < y ∧ y ≤ 18525/10000 ∧ y < 63/10) := by
  have hy : ∀ t : ℚ, 0 ≤ t → t ≤ 5 → 0 < chart_y t ∧ chart_y t ≤ 1425/1000 := by
    intro t ht0 ht5
    have hsq : t ^ 2 ≤ 25 := by nlinarith
    constructor
    · simp only [chart_y, baseline]
      nlinarith [sq_nonneg t]
    · simp only [chart_y, baseline]
      linarith
  refine ⟨?_, ?_, ?_, ?_⟩
  · intro x hx
    obtain ⟨t, ht, rfl⟩ := List.mem_map.1 hx
    obtain ⟨ht0, ht5⟩ := mem_years_bounds ht
    simp only [chart_x]
    refine ⟨by linarith, by linarith, by linarith, by linarith⟩
  · intro y hy'
    obtain ⟨t, ht, rfl⟩ := List.mem_map.1 hy'
    obtain ⟨ht0, ht5⟩ := mem_years_bounds ht
    obtain ⟨h1, h2⟩ := hy t ht0 ht5
    refine ⟨by linarith, by linarith, by linarith⟩
  · intro y hy'
    obtain ⟨t, ht, rfl⟩ := List.mem_map.1 hy'
    obtain ⟨ht0, ht5⟩ := mem_years_bounds ht
    obtain ⟨h1, h2⟩ := hy t ht0 ht5
    refine ⟨by linarith, by linarith, by linarith⟩
  · intro y hy'
    obtain ⟨t, ht, rfl⟩ := List.mem_map.1 hy'
    obtain ⟨ht0, ht5⟩ := mem_years_bounds ht
    obtain ⟨h1, h2⟩ := hy t ht0 ht5
    refine ⟨by linarith, by linarith, by linarith⟩

/-- Witness for C10, instantiating the x-bounds clause at the first chart
sample. -/
theorem trend_chart_in_canvas_witness :
    1/2 ≤ chart_x (5 * ((0:ℕ) : ℚ) / 49) ∧ chart_x (5 * ((0:ℕ) : ℚ) / 49) ≤ 5/2 ∧
    0 < chart_x (5 * ((0:ℕ) : ℚ) / 49) ∧ chart_x (5 * ((0:ℕ) : ℚ) / 49) < 12 :=
  trend_chart_in_canvas.1 _
    (List.mem_map_of_mem chart_x (List.mem_map_of_mem _ (by simp)))

end OG

namespace OG

/-- Witness for C5 at the concrete run indices 0 and 1. -/
theorem svg_runs_byte_identical_witness : run_svg 0 = run_svg 1 :=
  svg_runs_byte_identical 0 1

/-- Witness for C9 at the module's `COLORS` and an all-black Style Record. -/
theorem svg_independent_of_colors_witness :
    generate_og_image_svg COLORS = generate_og_image_svg
      { primary := "#000000", primary_dark := "#000000", accent := "#000000"
      , success := "#000000", warning := "#000000", dark := "#000000"
      , light := "#000000", white := "#000000" } :=
  svg_independent_of_colors.1 COLORS
    { primary := "#000000", primary_dark := "#000000", accent := "#000000"
    , success := "#000000", warning := "#000000", dark := "#000000"
    , light := "#000000", white := "#000000" }

end OG
